import Mathlib

/-!
Verification development for the sample BPE driver script
(`sample_bpe.py`): a thin driver that constructs a tokenizer from a
vocabulary file and a merges file, encodes the literal string
"Hello, world!", and prints the resulting token-id sequence.

The tokenizer engine itself lives in an external library and is not part
of the repository; following the specification it is modelled as an
opaque collaborator described only by its stated contract.
-/

namespace SampleBpe

/-- Modelled from the spec: the external tokenizer collaborator
(`GPT2TokenizerFast` from the external library, absent from the source).
The spec describes it only as an opaque handle with: validity notions for
the vocabulary and merges file contents, a constructor from the two
contents, and an encode operation producing, left to right, the token ids
of a tokenization of the input text.  The contract fields record exactly
the properties the spec states: the tokens of a text concatenate back to
the text (left-to-right order), ids are non-negative, encoding the chosen
literal and the empty string succeeds, and the empty string has no
tokens. -/
structure Collaborator where
  Handle : Type
  validVocab : String → Bool
  validMerges : String → Bool
  build : String → String → Handle
  tokenize : Handle → String → List String
  idOf : Handle → String → Int
  encodeOk : Handle → String → Bool
  tokenize_concat : ∀ h t, String.join (tokenize h t) = t
  idOf_nonneg : ∀ h s, 0 ≤ idOf h s
  encodeOk_hello : ∀ h, encodeOk h "Hello, world!" = true
  encodeOk_empty : ∀ h, encodeOk h "" = true
  tokenize_empty : ∀ h, tokenize h "" = []

/-- Failures surfaced by the external collaborator, per the spec: a
missing file, malformed vocabulary or merges content, or an encoding
failure. -/
inductive TokError where
  | missingFile (path : String)
  | malformedVocab
  | malformedMerges
  | encodeFailure
deriving DecidableEq

/-- A file system: a partial map from paths to file contents. -/
def FileSystem := String → Option String

/-- Modelled from the spec: the construction step
`initialize(vocab_path, merges_path)`.  It fails when either file is
missing or its content is invalid for the collaborator's expected
format, and otherwise yields an opaque handle. -/
def initTokenizer (C : Collaborator) (fs : FileSystem) (vp mp : String) :
    Except TokError C.Handle :=
  match fs vp with
  | none => Except.error (TokError.missingFile vp)
  | some v =>
    match fs mp with
    | none => Except.error (TokError.missingFile mp)
    | some m =>
      if C.validVocab v then
        if C.validMerges m then Except.ok (C.build v m)
        else Except.error TokError.malformedMerges
      else Except.error TokError.malformedVocab

/-- Modelled from the spec: `encode(handle, text)` returns the ids of the
text's tokens in left-to-right order, or propagates an encoding
failure. -/
def encodeOp (C : Collaborator) (h : C.Handle) (t : String) :
    Except TokError (List Int) :=
  if C.encodeOk h t then Except.ok ((C.tokenize h t).map (C.idOf h))
  else Except.error TokError.encodeFailure

/-- The vocabulary path the script passes as `vocab_file` (source line 3). -/
def vocab_file : String := "../dataset/BPE/vocab.json"

/-- The merges path the script passes as `merges_file` (source line 4). -/
def merges_file : String := "../dataset/BPE/merges.txt"

/-- The hard-coded input text the script encodes (source line 7). -/
def inputText : String := "Hello, world!"

/-- The linear driver: construct the tokenizer from the two paths, encode
the text, and on success print the resulting sequence.  The first
component collects the sequences written to standard output (the script's
single `print`); the second is the script's outcome.  Any failure stops
the chain with nothing printed. -/
def driver (C : Collaborator) (fs : FileSystem) (vp mp text : String) :
    List (List Int) × Except TokError Unit :=
  match initTokenizer C fs vp mp with
  | Except.error e => ([], Except.error e)
  | Except.ok h =>
    match encodeOp C h text with
    | Except.error e => ([], Except.error e)
    | Except.ok a => ([a], Except.ok ())

/-- The script itself: the driver applied to the two hard-coded relative
paths and the hard-coded literal, exactly as in `sample_bpe.py`. -/
def script (C : Collaborator) (fs : FileSystem) :
    List (List Int) × Except TokError Unit :=
  driver C fs vocab_file merges_file inputText

/-- An invocation of the script with command-line arguments and an
environment.  The source reads neither, so the run ignores both. -/
def run (C : Collaborator) (fs : FileSystem)
    (_args : List String) (_env : String → Option String) :
    List (List Int) × Except TokError Unit :=
  script C fs

/-- Modelled from the spec: the process exit code, 0 when no error
propagates and non-zero (an unhandled error) otherwise. -/
def exitCode (C : Collaborator) (fs : FileSystem) : Nat :=
  match (script C fs).2 with
  | Except.ok _ => 0
  | Except.error _ => 1

/-- Two successive encode calls on the same handle and text, as in the
determinism property of the spec. -/
def encodeTwice (C : Collaborator) (h : C.Handle) (t : String) :
    Except TokError (List Int) × Except TokError (List Int) :=
  (encodeOp C h t, encodeOp C h t)

/-- A concrete collaborator family used to exhibit satisfiability of the
contract: the validity predicates are parameters, every non-empty text is
a single token with id 0, and encoding always succeeds. -/
def testTok (vv vm : String → Bool) : Collaborator where
  Handle := Unit
  validVocab := vv
  validMerges := vm
  build := fun _ _ => ()
  tokenize := fun _ t => if t = "" then [] else [t]
  idOf := fun _ _ => 0
  encodeOk := fun _ _ => true
  tokenize_concat := by
    intro h t
    by_cases ht : t = "" <;> simp [ht, String.join]
  idOf_nonneg := by intro h s; exact le_refl 0
  encodeOk_hello := by intro h; rfl
  encodeOk_empty := by intro h; rfl
  tokenize_empty := by intro h; rfl

/-- The collaborator that accepts every file content. -/
def unitTok : Collaborator := testTok (fun _ => true) (fun _ => true)

/-- A file system holding both expected files. -/
def goodFS : FileSystem := fun p =>
  if p = vocab_file then some "goodvocab"
  else if p = merges_file then some "goodmerges"
  else none

/-- The empty file system. -/
def emptyFS : FileSystem := fun _ => none

/-- Helper: every run of the script either fails with no output, or
succeeds having printed exactly one sequence. -/
theorem script_cases (C : Collaborator) (fs : FileSystem) :
    (∃ e, script C fs = ([], Except.error e)) ∨
      ∃ a, script C fs = ([a], Except.ok ()) := by
  unfold script driver
  cases hinit : initTokenizer C fs vocab_file merges_file with
  | error e => exact Or.inl ⟨e, rfl⟩
  | ok h =>
    cases henc : encodeOp C h inputText with
    | error e => exact Or.inl ⟨e, by simp [henc]⟩
    | ok a => exact Or.inr ⟨a, by simp [henc]⟩

/-- C1: for every valid vocabulary file and merges file, running the
script returns a non-empty ordered sequence of non-negative integers and
the final print writes exactly that sequence to standard output. -/
theorem C1_happy_path (C : Collaborator) (fs : FileSystem) (v m : String)
    (hv : fs vocab_file = some v) (hm : fs merges_file = some m)
    (hvv : C.validVocab v = true) (hvm : C.validMerges m = true) :
    ∃ ids : List Int, ids ≠ [] ∧ (∀ i ∈ ids, 0 ≤ i) ∧
      script C fs = ([ids], Except.ok ()) := by
  refine ⟨(C.tokenize (C.build v m) inputText).map (C.idOf (C.build v m)),
    ?_, ?_, ?_⟩
  · intro hnil
    have hjoin := C.tokenize_concat (C.build v m) inputText
    cases hto : C.tokenize (C.build v m) inputText with
    | nil =>
      rw [hto] at hjoin
      exact absurd hjoin (by decide)
    | cons s rest =>
      rw [hto] at hnil
      simp at hnil
  · intro i hi
    rcases List.mem_map.mp hi with ⟨s, _, rfl⟩
    exact C.idOf_nonneg _ s
  · simp [script, driver, initTokenizer, encodeOp, hv, hm, hvv, hvm,
      C.encodeOk_hello, inputText]

/-- Witness for C1 at a concrete collaborator and file system. -/
theorem C1_happy_path_witness :
    ∃ ids : List Int, ids ≠ [] ∧ (∀ i ∈ ids, 0 ≤ i) ∧
      script unitTok goodFS = ([ids], Except.ok ()) :=
  C1_happy_path unitTok goodFS "goodvocab" "goodmerges" rfl rfl rfl rfl

/-- C2: encoding the same text twice with the same handle yields two
identical token-id sequences; encode is a deterministic function of the
handle and the text. -/
theorem C2_encode_deterministic (C : Collaborator) (h : C.Handle)
    (t : String) :
    (encodeTwice C h t).1 = (encodeTwice C h t).2 := rfl

/-- Witness for C2 at a concrete handle and text. -/
theorem C2_encode_deterministic_witness :
    (encodeTwice unitTok () "abc").1 = (encodeTwice unitTok () "abc").2 :=
  C2_encode_deterministic unitTok () "abc"

/-- C3: if either file path does not refer to an existing file, the
construction step fails and the script prints nothing. -/
theorem C3_missing_file (C : Collaborator) (fs : FileSystem)
    (hmiss : fs vocab_file = none ∨ fs merges_file = none) :
    (script C fs).1 = [] ∧ ∃ e, (script C fs).2 = Except.error e := by
  rcases hmiss with hv | hm
  · exact ⟨by simp [script, driver, initTokenizer, hv],
      TokError.missingFile vocab_file,
      by simp [script, driver, initTokenizer, hv]⟩
  · cases hfv : fs vocab_file with
    | none =>
      exact ⟨by simp [script, driver, initTokenizer, hfv],
        TokError.missingFile vocab_file,
        by simp [script, driver, initTokenizer, hfv]⟩
    | some v =>
      exact ⟨by simp [script, driver, initTokenizer, hfv, hm],
        TokError.missingFile merges_file,
        by simp [script, driver, initTokenizer, hfv, hm]⟩

/-- Witness for C3 on the empty file system. -/
theorem C3_missing_file_witness :
    (script unitTok emptyFS).1 = [] ∧
      ∃ e, (script unitTok emptyFS).2 = Except.error e :=
  C3_missing_file unitTok emptyFS (Or.inl rfl)

/-- C4: if the vocabulary file exists but its content is invalid for the
expected format, the construction step fails and the script prints
nothing. -/
theorem C4_malformed_vocab (C : Collaborator) (fs : FileSystem)
    (v : String) (hv : fs vocab_file = some v)
    (hbad : C.validVocab v = false) :
    (script C fs).1 = [] ∧ ∃ e, (script C fs).2 = Except.error e := by
  cases hfm : fs merges_file with
  | none =>
    exact ⟨by simp [script, driver, initTokenizer, hv, hfm],
      TokError.missingFile merges_file,
      by simp [script, driver, initTokenizer, hv, hfm]⟩
  | some m =>
    exact ⟨by simp [script, driver, initTokenizer, hv, hfm, hbad],
      TokError.malformedVocab,
      by simp [script, driver, initTokenizer, hv, hfm, hbad]⟩

/-- Witness for C4 with a collaborator that rejects every vocabulary. -/
theorem C4_malformed_vocab_witness :
    (script (testTok (fun _ => false) (fun _ => true)) goodFS).1 = [] ∧
      ∃ e, (script (testTok (fun _ => false) (fun _ => true)) goodFS).2 =
        Except.error e :=
  C4_malformed_vocab (testTok (fun _ => false) (fun _ => true)) goodFS
    "goodvocab" rfl rfl

/-- C5: encoding the empty string returns the empty sequence of token
ids, for every handle. -/
theorem C5_encode_empty (C : Collaborator) (h : C.Handle) :
    encodeOp C h "" = Except.ok [] := by
  simp [encodeOp, C.encodeOk_empty, C.tokenize_empty]

/-- Witness for C5 at a concrete handle. -/
theorem C5_encode_empty_witness :
    encodeOp unitTok () "" = Except.ok [] :=
  C5_encode_empty unitTok ()

/-- C6: for every handle produced by the construction step and every
text, a successful encode yields the ids of a left-to-right tokenization
of the text (the tokens concatenate back to the text, and the id list is
their image in order), and every id is non-negative. -/
theorem C6_ordered_ids (C : Collaborator) (fs : FileSystem)
    (vp mp t : String) (h : C.Handle)
    (_hinit : initTokenizer C fs vp mp = Except.ok h)
    (ids : List Int) (henc : encodeOp C h t = Except.ok ids) :
    (∀ i ∈ ids, 0 ≤ i) ∧ ids = (C.tokenize h t).map (C.idOf h) ∧
      String.join (C.tokenize h t) = t := by
  have hids : ids = (C.tokenize h t).map (C.idOf h) := by
    by_cases hk : C.encodeOk h t
    · simp [encodeOp, hk] at henc
      exact henc.symm
    · simp [encodeOp, hk] at henc
  refine ⟨?_, hids, C.tokenize_concat h t⟩
  intro i hi
  rw [hids] at hi
  rcases List.mem_map.mp hi with ⟨s, _, rfl⟩
  exact C.idOf_nonneg h s

/-- Witness for C6 at a concrete handle obtained from the construction
step. -/
theorem C6_ordered_ids_witness :
    (∀ i ∈ [(0 : Int)], 0 ≤ i) ∧
      [(0 : Int)] = (unitTok.tokenize () inputText).map (unitTok.idOf ()) ∧
      String.join (unitTok.tokenize () inputText) = inputText :=
  C6_ordered_ids unitTok goodFS vocab_file merges_file inputText () rfl
    [(0 : Int)] rfl

/-- C7: every failure propagates to the process boundary: the exit code
is 0 exactly when the run succeeded, and any propagated error yields a
non-zero exit code with nothing printed. -/
theorem C7_failure_propagation (C : Collaborator) (fs : FileSystem) :
    (exitCode C fs = 0 ↔ (script C fs).2 = Except.ok ()) ∧
      ∀ e, (script C fs).2 = Except.error e →
        exitCode C fs = 1 ∧ (script C fs).1 = [] := by
  rcases script_cases C fs with ⟨e, hs⟩ | ⟨a, hs⟩
  · refine ⟨by simp [exitCode, hs], ?_⟩
    intro e2 _
    exact ⟨by simp [exitCode, hs], by simp [hs]⟩
  · refine ⟨by simp [exitCode, hs], ?_⟩
    intro e2 he2
    rw [hs] at he2
    simp at he2

/-- Witness for C7 on a failing run. -/
theorem C7_failure_propagation_witness :
    exitCode unitTok emptyFS = 1 ∧ (script unitTok emptyFS).1 = [] :=
  (C7_failure_propagation unitTok emptyFS).2
    (TokError.missingFile vocab_file) rfl

/-- C8: the script reads no command-line arguments and no environment
variables: any two invocations with the same collaborator and file
system produce the same output, whatever arguments and environment are
supplied. -/
theorem C8_no_cli_no_env (C : Collaborator) (fs : FileSystem)
    (args1 args2 : List String) (env1 env2 : String → Option String) :
    run C fs args1 env1 = run C fs args2 env2 := rfl

/-- Witness for C8 at two concrete invocations. -/
theorem C8_no_cli_no_env_witness :
    run unitTok goodFS ["--foo"] (fun _ => none) =
      run unitTok goodFS [] (fun v => some v) :=
  C8_no_cli_no_env unitTok goodFS ["--foo"] [] (fun _ => none)
    (fun v => some v)

/-- C9 counterexample: the paths the script passes are not the bare
relative paths claimed; they live under `../dataset/BPE/`. -/
theorem C9_counterexample :
    vocab_file ≠ "vocab.json" ∧ merges_file ≠ "merges.txt" := by
  constructor <;> decide

/-- C9 (amended): the two file inputs consumed by the script are the
relative paths `../dataset/BPE/vocab.json` and `../dataset/BPE/merges.txt`,
passed to the construction call as the vocabulary path and the merges
path respectively. -/
theorem C9_file_inputs :
    vocab_file = "../dataset/BPE/vocab.json" ∧
      merges_file = "../dataset/BPE/merges.txt" ∧
      ∀ (C : Collaborator) (fs : FileSystem),
        script C fs = driver C fs vocab_file merges_file inputText :=
  ⟨rfl, rfl, fun _ _ => rfl⟩

/-- C10: the run prints at most one sequence; it prints exactly one if
and only if it succeeded, and any propagated error leaves the output
empty — so partial output can never precede a failure. -/
theorem C10_single_final_output (C : Collaborator) (fs : FileSystem) :
    (script C fs).1.length ≤ 1 ∧
      ((script C fs).2 = Except.ok () ↔ ∃ a, (script C fs).1 = [a]) ∧
      ∀ e, (script C fs).2 = Except.error e → (script C fs).1 = [] := by
  rcases script_cases C fs with ⟨e, hs⟩ | ⟨a, hs⟩ <;> rw [hs] <;> simp

/-- Witness for C10 on a failing run. -/
theorem C10_single_final_output_witness :
    (script unitTok emptyFS).1 = [] :=
  (C10_single_final_output unitTok emptyFS).2.2
    (TokError.missingFile vocab_file) rfl

end SampleBpe
